import Mathlib

/-!
Verification of the ComplyFlow gateway (`src/main.py`) against its
natural-language specification.

The development shallowly embeds the Python source: JSON values become the
inductive `JVal`; Python dictionaries become ordered association lists (first
match wins, as for unique-keyed `dict`s); fallible attribute access (the
`AttributeError` a `.get` on a non-dict raises) is modelled with
`Except Unit`; the two outbound HTTP calls and the credential refresh are
oracles passed to `chat` as explicit outcome values.  `chat` additionally
returns the ordered list of outbound-call events so that sequencing claims
can be stated.
-/

set_option autoImplicit false

/-- A JSON value, as produced by `requests.Response.json()` and consumed by
the gateway.  Numbers are modelled as integers; no code path of the gateway
inspects fractional parts. -/
inductive JVal where
  | null
  | bool (b : Bool)
  | num (n : Int)
  | str (s : String)
  | arr (elems : List JVal)
  | obj (fields : List (String × JVal))

/-- Python truthiness (`bool(v)`) of a JSON value: `None`, `False`, `0`,
`""`, `[]` and `{}` are falsy, everything else truthy. -/
def JVal.truthy : JVal → Bool
  | .null => false
  | .bool b => b
  | .num n => n != 0
  | .str s => s != ""
  | .arr elems => !elems.isEmpty
  | .obj fields => !fields.isEmpty

/-- Python `a or b` on JSON values: `a` if truthy, else `b`. -/
def pyOr (a b : JVal) : JVal := if a.truthy then a else b

/-- Python `a or b` where `a` is an optional string (`None` and `""` are
falsy). -/
def pyOrStr (a : Option String) (b : String) : String :=
  match a with
  | some s => if s != "" then s else b
  | none => b

/-- `d.get(k)` restricted to mapping-shaped values: key lookup on a mapping,
`none` on anything else.  Used where the surrounding code guarantees the
receiver is a mapping. -/
def jGet (v : JVal) (k : String) : Option JVal :=
  match v with
  | .obj fields => fields.lookup k
  | _ => none

/-- Truthiness of a Python expression that may be `None` (`Option`). -/
def optTruthy : Option JVal → Bool
  | some v => v.truthy
  | none => false

/-- `isinstance(v, dict)` on an optional value (`None` is not a dict). -/
def isDictOpt : Option JVal → Bool
  | some (.obj _) => true
  | _ => false

/-- `isinstance(v, str)`. -/
def isStr : JVal → Bool
  | .str _ => true
  | _ => false

/-- Extract a string, as the comprehension `[t for t in txt if isinstance(t, str)]`
keeps only strings. -/
def strOnly : JVal → Option String
  | .str s => some s
  | _ => none

/-- Python `s[:n]`: the first `n` characters. -/
def pyTruncate (n : Nat) (s : String) : String :=
  String.mk (s.toList.take n)

/-- Python `s.strip()`: drop leading and trailing whitespace. -/
def pyStrip (s : String) : String :=
  String.mk (((s.toList.dropWhile Char.isWhitespace).reverse.dropWhile
    Char.isWhitespace).reverse)

mutual
/-- Python `repr(v)` of a JSON value, as used by `str()` on non-strings.
Escaping inside quoted strings is elided; no claim inspects the rendering of
nested containers. -/
def pyRepr : JVal → String
  | .null => "None"
  | .bool true => "True"
  | .bool false => "False"
  | .num n => toString n
  | .str s => String.singleton (Char.ofNat 39) ++ s ++ String.singleton (Char.ofNat 39)
  | .arr elems => "[" ++ String.intercalate ", " (pyReprList elems) ++ "]"
  | .obj fields => "\x7b" ++ String.intercalate ", " (pyReprObj fields) ++ "\x7d"

def pyReprList : List JVal → List String
  | [] => []
  | v :: vs => pyRepr v :: pyReprList vs

def pyReprObj : List (String × JVal) → List String
  | [] => []
  | (k, v) :: kvs =>
    (String.singleton (Char.ofNat 39) ++ k ++ String.singleton (Char.ofNat 39)
      ++ ": " ++ pyRepr v) :: pyReprObj kvs
end

/-- Python `str(v)`: a string is returned as itself, anything else via its
`repr`-style rendering. -/
def pyStr : JVal → String
  | .str s => s
  | v => pyRepr v

/-! ## ResponseNormalizer (`_extract_reply_text`, `_extract_session_params`,
`_normalize_for_ui`, `src/main.py` lines 97-140)

`Except Unit` records the `AttributeError`/`TypeError` a `.get` on a
truthy non-mapping (or iterating a non-list) raises; `.ok` is a normal
return. -/

/-- The fixed localized fallback reply (`src/main.py` line 109). -/
def FALLBACK_REPLY : String := "קיבלתי. איך תרצה להמשיך?"

/-- One iteration of the message loop (`src/main.py` lines 102-107):
`txt = (m.get("text") or \x7b\x7d).get("text")`, then strings from a list
payload, a single string payload, or nothing. -/
def chunkOf (m : JVal) : Except Unit (List String) :=
  match m with
  | .obj fields =>
    match pyOr ((fields.lookup "text").getD JVal.null) (JVal.obj []) with
    | .obj tfields =>
      match (tfields.lookup "text").getD JVal.null with
      | .arr ts => .ok (ts.filterMap strOnly)
      | .str s => .ok [s]
      | _ => .ok []
    | _ => .error ()   -- truthy non-mapping `m["text"]`: `.get` raises
  | _ => .error ()     -- non-mapping message: `m.get` raises

/-- `_extract_reply_text` (`src/main.py` lines 97-109). -/
def extract_reply_text (df_response : JVal) : Except Unit String :=
  match df_response with
  | .obj dfields =>
    match pyOr ((dfields.lookup "queryResult").getD (JVal.obj [])) (JVal.obj []) with
    | .obj qfields =>
      match pyOr ((qfields.lookup "responseMessages").getD (JVal.arr [])) (JVal.arr []) with
      | .arr msgs =>
        match msgs.mapM chunkOf with
        | .ok chunkss =>
          let chunks := chunkss.flatten
          .ok (if chunks.isEmpty then FALLBACK_REPLY
               else pyStrip (String.intercalate "\n" chunks))
        | .error e => .error e
      | _ => .error ()   -- truthy non-list `responseMessages`: loop raises
    | _ => .error ()     -- truthy non-mapping `queryResult`: `.get` raises
  | _ => .error ()       -- non-mapping response: `.get` raises

/-- `_extract_session_params` (`src/main.py` lines 112-115); the result is the
field list of the parameters mapping (`\x7b\x7d` when absent or not a dict). -/
def extract_session_params (df_response : JVal) : Except Unit (List (String × JVal)) :=
  match df_response with
  | .obj dfields =>
    match pyOr ((dfields.lookup "queryResult").getD (JVal.obj [])) (JVal.obj []) with
    | .obj qfields =>
      match pyOr ((qfields.lookup "parameters").getD JVal.null) (JVal.obj []) with
      | .obj pfields => .ok pfields
      | _ => .ok []    -- `params if isinstance(params, dict) else \x7b\x7d`
    | _ => .error ()
  | _ => .error ()

/-- The `business_profile` mapping built by `_normalize_for_ui`
(`src/main.py` lines 134-138): three independently nullable strings, in
insertion order business_stage, license_status, business_tags. -/
structure BusinessProfile where
  business_stage : Option String
  license_status : Option String
  business_tags : Option String

/-- `str(x) if x is not None else None` on the result of `params.get(key)`:
an absent key and a JSON `null` value both yield `None`. -/
def optPyStr : Option JVal → Option String
  | none => none
  | some JVal.null => none
  | some v => some (pyStr v)

/-- The value `_normalize_for_ui` returns (`src/main.py` lines 133-140). -/
structure UiNorm where
  business_profile : BusinessProfile
  compliance_checklist : List String

/-- `_normalize_for_ui` (`src/main.py` lines 118-140). -/
def normalize_for_ui (params : List (String × JVal)) : UiNorm :=
  let checklist := pyOr ((params.lookup "compliance_checklist").getD JVal.null)
    (JVal.arr [])
  let checklist_list : List String :=
    match checklist with
    | .str s => [s]
    | .arr xs => xs.map pyStr
    | _ => []
  { business_profile :=
      { business_stage := optPyStr (params.lookup "business_stage")
        license_status := optPyStr (params.lookup "license_status")
        business_tags := optPyStr (params.lookup "business_tags") }
    compliance_checklist := checklist_list }

/-! ## VisionOrchestrator (`_call_vision_tool`, `src/main.py` lines 143-160)

The single outbound POST is an oracle: either the `requests` call (or
anything inside the `try`) raised, or it produced a response with a status
code, a body text, and a `json()` parse outcome. -/

/-- An HTTP response as the code observes it: `status_code`, `text`, and the
outcome of `.json()` (which raises on an unparsable body). -/
structure HttpResp where
  status : Nat
  text : String
  json : Except String JVal

/-- Outcome of one outbound HTTP call: a raised exception (transport error,
timeout, ...) or a response. -/
inductive HttpOutcome where
  | exn (msg : String)
  | resp (r : HttpResp)

/-- `_call_vision_tool` (`src/main.py` lines 143-160).  Total: the
`except Exception` catch-all absorbs every failure into a
`success: false` mapping; a 2xx/3xx body carrying `vision_data` is
returned verbatim. -/
def call_vision_tool (outcome : HttpOutcome) : JVal :=
  match outcome with
  | .exn e => .obj [("success", .bool false), ("error", .str e)]
  | .resp r =>
    if 400 ≤ r.status then
      .obj [("success", .bool false),
            ("error", .str ("Vision HTTP " ++ toString r.status ++ ": "
              ++ pyTruncate 500 r.text))]
    else
      match r.json with
      | .error e => .obj [("success", .bool false), ("error", .str e)]
      | .ok data =>
        match data with
        | .obj fields =>
          if (fields.lookup "vision_data").isSome then data
          else .obj [("success", .bool false),
                     ("error", .str "Vision payload missing vision_data")]
        | _ => .obj [("success", .bool false),
                     ("error", .str "Vision payload missing vision_data")]

/-! ## SessionIdentity (`str(uuid.uuid4())`, `src/main.py` line 165) -/

/-- Lower-case hexadecimal digit. -/
def hexChar (n : Nat) : Char :=
  if n < 10 then Char.ofNat (48 + n) else Char.ofNat (87 + n)

/-- `width` lower-case hex digits of `n % 16^width`, most significant first. -/
def toHexPad : Nat → Nat → List Char
  | _, 0 => []
  | n, w + 1 => toHexPad (n / 16) w ++ [hexChar (n % 16)]

/-- `str(uuid.uuid4())`: the canonical 8-4-4-4-12 rendering (36 characters)
of a 128-bit random value `rand`, with the version nibble fixed to `4` and
the variant nibble to `8..b`. -/
def uuid4str (rand : Nat) : String :=
  String.mk (toHexPad (rand % 2 ^ 32) 8
    ++ '-' :: toHexPad (rand / 2 ^ 32 % 2 ^ 16) 4
    ++ '-' :: hexChar 4 :: toHexPad (rand / 2 ^ 48 % 2 ^ 12) 3
    ++ '-' :: hexChar (8 + rand / 2 ^ 60 % 4) :: toHexPad (rand / 2 ^ 62 % 2 ^ 12) 3
    ++ '-' :: toHexPad (rand / 2 ^ 74) 12)

/-! ## GatewayOrchestrator (`chat`, `src/main.py` lines 163-221)

Configuration is the resolved environment (`Config`); randomness, the
credential refresh and the two HTTP calls are oracles.  The URL and header
strings of lines 166-173 are pure configuration plumbing never read by the
rest of the handler and are not modelled beyond the token outcome. -/

/-- `ChatRequest` (`src/main.py` lines 61-65). -/
structure ChatReq where
  session_id : Option String
  message : String
  image_data : Option String

/-- The resolved configuration the handler reads: `CURRENT_PLAYBOOK`,
`LANGUAGE_CODE`, and the two debug toggles (`os.getenv(..) == "1"`). -/
structure Config where
  playbook : Option String
  language : String
  debug_raw : Bool
  debug_vision : Bool

/-- The successfully returned `ChatResponse` object (`src/main.py`
lines 68-74 and 214-221); `none` debug fields are the `None` defaults. -/
structure ChatOk where
  session_id : String
  reply : String
  business_profile : BusinessProfile
  compliance_checklist : List String
  vision_debug : Option JVal
  raw_agent_response : Option JVal

/-- How one `/chat` invocation ends: a `ChatResponse`, a raised
`HTTPException(status_code, detail)` (line 203), or an uncaught exception
(credential failure, `requests` error, `.json()` error, `AttributeError`
during extraction). -/
inductive ChatOutcome where
  | ok (res : ChatOk)
  | httpExc (status : Nat) (detail : String)
  | exn (msg : String)

/-- An observable outbound call made by the handler, in execution order. -/
inductive Event where
  | visionCall (image_b64 : String)
  | agentCall (body : JVal)

/-- Step 1 of the handler (`src/main.py` lines 176-178): the vision result,
`None` unless the request carries truthy image data. -/
def chatVisionResult (req : ChatReq) (visionOutcome : HttpOutcome) : Option JVal :=
  match req.image_data with
  | some img => if img != "" then some (call_vision_tool visionOutcome) else none
  | none => none

/-- The vision events the handler emits: one call iff image data is truthy. -/
def visionEventsOf (req : ChatReq) : List Event :=
  match req.image_data with
  | some img => if img != "" then [Event.visionCall img] else []
  | none => []

/-- The `query_params` entries of lines 188-190: the playbook override iff
`CURRENT_PLAYBOOK` is truthy. -/
def pbPart (playbook : Option String) : List (String × JVal) :=
  match playbook with
  | some p => if p != "" then [("currentPlaybook", JVal.str p)] else []
  | none => []

/-- `query_params` (`src/main.py` lines 188-196): optional playbook
override, then the vision parameters iff the vision result is truthy, its
`success` flag truthy and its `vision_data` a mapping. -/
def buildQueryParams (playbook : Option String) (vision_result : Option JVal) :
    List (String × JVal) :=
  let qp : List (String × JVal) := pbPart playbook
  match vision_result with
  | some v =>
    if v.truthy && optTruthy (jGet v "success") && isDictOpt (jGet v "vision_data") then
      qp ++ [("parameters",
        JVal.obj [("vision_data", (jGet v "vision_data").getD JVal.null),
                  ("has_image", JVal.bool true)])]
    else qp
  | none => qp

/-- The Dialogflow `detectIntent` body (`src/main.py` lines 181-199):
`queryInput` always, `queryParams` only when non-empty. -/
def buildAgentBody (playbook : Option String) (language message : String)
    (vision_result : Option JVal) : JVal :=
  let qp := buildQueryParams playbook vision_result
  JVal.obj ([("queryInput",
      JVal.obj [("languageCode", JVal.str language),
                ("text", JVal.obj [("text", JVal.str message)])])]
    ++ (if qp.isEmpty then [] else [("queryParams", JVal.obj qp)]))

/-- The agent request body a given invocation sends. -/
def chatBody (cfg : Config) (req : ChatReq) (visionOutcome : HttpOutcome) : JVal :=
  buildAgentBody cfg.playbook cfg.language req.message (chatVisionResult req visionOutcome)

/-- The ordered outbound calls of one invocation that reaches the agent
call: the optional vision call strictly before the agent call. -/
def chatEvents (cfg : Config) (req : ChatReq) (visionOutcome : HttpOutcome) : List Event :=
  visionEventsOf req ++ [Event.agentCall (chatBody cfg req visionOutcome)]

/-- The `ChatResponse` built on success (`src/main.py` lines 214-221). -/
def chatOkResult (cfg : Config) (req : ChatReq) (rand : Nat)
    (visionOutcome : HttpOutcome) (df_response : JVal) (reply : String)
    (params : List (String × JVal)) : ChatOk :=
  { session_id := pyTruncate 36 (pyOrStr req.session_id (uuid4str rand))
    reply := reply
    business_profile := (normalize_for_ui params).business_profile
    compliance_checklist := (normalize_for_ui params).compliance_checklist
    vision_debug := if cfg.debug_vision then chatVisionResult req visionOutcome else none
    raw_agent_response := if cfg.debug_raw then some df_response else none }

/-- The `/chat` handler (`src/main.py` lines 163-221), with its ordered
outbound-call trace.  `rand` feeds `uuid.uuid4()`, `tokenOutcome` is
`_get_access_token()`, `visionOutcome`/`agentOutcome` are the two POSTs. -/
def chat (cfg : Config) (req : ChatReq) (rand : Nat)
    (tokenOutcome : Except String String)
    (visionOutcome : HttpOutcome) (agentOutcome : HttpOutcome) :
    ChatOutcome × List Event :=
  match tokenOutcome with
  | .error e => (.exn e, [])
  | .ok _token =>
    match agentOutcome with
    | .exn e => (.exn e, chatEvents cfg req visionOutcome)
    | .resp r =>
      if 400 ≤ r.status then
        (.httpExc r.status r.text, chatEvents cfg req visionOutcome)
      else
        match r.json with
        | .error e => (.exn e, chatEvents cfg req visionOutcome)
        | .ok df_response =>
          match extract_reply_text df_response with
          | .error _ => (.exn "AttributeError", chatEvents cfg req visionOutcome)
          | .ok reply =>
            match extract_session_params df_response with
            | .error _ => (.exn "AttributeError", chatEvents cfg req visionOutcome)
            | .ok params =>
              (.ok (chatOkResult cfg req rand visionOutcome df_response reply params),
               chatEvents cfg req visionOutcome)

/-- FastAPI's serialization of the response object under
`response_model=ChatResponse` with default options
(`response_model_exclude_none` unset): every declared field is rendered,
an attribute holding `None` as JSON `null`. -/
def chatResponseJson (r : ChatOk) : JVal :=
  .obj [("session_id", .str r.session_id),
        ("reply", .str r.reply),
        ("business_profile", .obj
          [("business_stage", (r.business_profile.business_stage.map JVal.str).getD .null),
           ("license_status", (r.business_profile.license_status.map JVal.str).getD .null),
           ("business_tags", (r.business_profile.business_tags.map JVal.str).getD .null)]),
        ("compliance_checklist", .arr (r.compliance_checklist.map JVal.str)),
        ("vision_debug", r.vision_debug.getD .null),
        ("raw_agent_response", r.raw_agent_response.getD .null)]

/-- The serialized response of an outcome, when it is a response at all. -/
def responseJsonOf : ChatOutcome → Option JVal
  | .ok r => some (chatResponseJson r)
  | _ => none

/-- The session id of an outcome, when it is a response at all. -/
def sessionIdOf : ChatOutcome → Option String
  | .ok r => some r.session_id
  | _ => none

/-- The reply of an outcome, when it is a response at all. -/
def chatReplyOf : ChatOutcome → Option String
  | .ok r => some r.reply
  | _ => none

/-- The bodies of the agent calls in a trace. -/
def agentBodies (tr : List Event) : List JVal :=
  tr.filterMap (fun e => match e with | .agentCall b => some b | _ => none)

/-- `queryParams.parameters` of an agent request body, if present. -/
def paramsField (body : JVal) : Option JVal :=
  (jGet body "queryParams").bind (fun qp => jGet qp "parameters")

/-- `queryParams.parameters.vision_data` of an agent request body. -/
def visionDataIn (body : JVal) : Option JVal :=
  (paramsField body).bind (fun ps => jGet ps "vision_data")

/-- `queryParams.parameters.has_image` of an agent request body. -/
def hasImageIn (body : JVal) : Option JVal :=
  (paramsField body).bind (fun ps => jGet ps "has_image")

/-- Whether the request carries truthy image data (`if req.image_data:`). -/
def imgTruthy (req : ChatReq) : Bool :=
  match req.image_data with
  | some img => img != ""
  | none => false

/-- A well-shaped response message: a mapping whose `text` entry (if any) is
a mapping or falsy, so that line 103 of the source cannot raise on it. -/
def msgOk (m : JVal) : Bool :=
  match m with
  | .obj fields =>
    match (fields.lookup "text").getD JVal.null with
    | .obj _ => true
    | .null => true
    | .bool b => !b
    | .num n => n == 0
    | .str s => s == ""
    | .arr ts => ts.isEmpty
  | _ => false


/-- The text fragments a well-shaped message contributes. -/
def msgChunks (m : JVal) : List String :=
  match m with
  | .obj fields =>
    match (fields.lookup "text").getD JVal.null with
    | .obj tfields =>
      match (tfields.lookup "text").getD JVal.null with
      | .arr ts => ts.filterMap strOnly
      | .str s => [s]
      | _ => []
    | _ => []
  | _ => []


/-- The reply the handler derives from a well-shaped message list: all
fragments in encounter order joined by newline and stripped, or the fixed
fallback when there is no fragment at all. -/
def replyOfMsgs (msgs : List JVal) : String :=
  let chunks := (msgs.map msgChunks).flatten
  if chunks.isEmpty then FALLBACK_REPLY
  else pyStrip (String.intercalate "\n" chunks)


/-- A message with every non-string element of a list-shaped textual payload
removed, and a message whose textual payload is neither a string nor a list
replaced by one contributing nothing. -/
def dropNonStrings (m : JVal) : JVal :=
  match m with
  | .obj fields =>
    match (fields.lookup "text").getD JVal.null with
    | .obj tfields =>
      match (tfields.lookup "text").getD JVal.null with
      | .arr ts => .obj [("text", .obj [("text", .arr (ts.filter isStr))])]
      | .str s => .obj [("text", .obj [("text", .str s)])]
      | _ => .obj []
    | _ => .obj []
  | _ => .obj []


/-- `vision_debug` of the serialized response, when there is a response. -/
def visionDebugJson : ChatOutcome → Option (Option JVal)
  | .ok r => some (jGet (chatResponseJson r) "vision_debug")
  | _ => none


/-- `raw_agent_response` of the serialized response, when there is one. -/
def rawAgentJson : ChatOutcome → Option (Option JVal)
  | .ok r => some (jGet (chatResponseJson r) "raw_agent_response")
  | _ => none


/-!  ## Helper lemmas -/

theorem pyOr_obj (fields : List (String × JVal)) :
    pyOr (JVal.obj fields) (JVal.obj []) = JVal.obj fields := by
  cases fields <;> simp [pyOr, JVal.truthy]

theorem pyOr_arr (elems : List JVal) :
    pyOr (JVal.arr elems) (JVal.arr []) = JVal.arr elems := by
  cases elems <;> simp [pyOr, JVal.truthy]

theorem chunkOf_ok (m : JVal) (h : msgOk m = true) :
    chunkOf m = .ok (msgChunks m) := by
  cases m with
  | obj fields =>
    cases ht : (fields.lookup "text").getD JVal.null with
    | obj tfields =>
      simp only [chunkOf, msgChunks, ht, pyOr_obj]
      cases (tfields.lookup "text").getD JVal.null <;> rfl
    | null => simp [chunkOf, msgChunks, ht, pyOr, JVal.truthy]
    | bool b =>
      have hb : b = false := by simpa [msgOk, ht] using h
      subst hb; simp [chunkOf, msgChunks, ht, pyOr, JVal.truthy]
    | num n =>
      have hn : n = 0 := by simpa [msgOk, ht] using h
      subst hn; simp [chunkOf, msgChunks, ht, pyOr, JVal.truthy]
    | str s =>
      have hs : s = "" := by simpa [msgOk, ht] using h
      subst hs; simp [chunkOf, msgChunks, ht, pyOr, JVal.truthy]
    | arr ts =>
      have hts : ts = [] := by simpa [msgOk, ht, List.isEmpty_iff] using h
      subst hts; simp [chunkOf, msgChunks, ht, pyOr, JVal.truthy]
  | null => simp [msgOk] at h
  | bool b => simp [msgOk] at h
  | num n => simp [msgOk] at h
  | str s => simp [msgOk] at h
  | arr ts => simp [msgOk] at h

theorem mapM_chunkOf (msgs : List JVal) (h : ∀ m ∈ msgs, msgOk m = true) :
    msgs.mapM chunkOf = Except.ok (msgs.map msgChunks) := by
  induction msgs with
  | nil => rfl
  | cons m ms ih =>
    have hm := h m (List.mem_cons_self ..)
    have hms := ih (fun x hx => h x (List.mem_cons_of_mem _ hx))
    rw [List.mapM_cons, chunkOf_ok m hm]
    show (Except.ok (msgChunks m) >>= fun b => ms.mapM chunkOf >>= fun bs => pure (b :: bs))
      = Except.ok (msgChunks m :: ms.map msgChunks)
    rw [show ∀ (x : List String) (f : List String → Except Unit (List (List String))),
        (Except.ok x >>= f) = f x from fun _ _ => rfl, hms]
    rfl

/-- `_extract_reply_text` on a response whose `queryResult` is a mapping,
whose `responseMessages` is a list and whose messages are well shaped:
never raises, and returns the joined-and-stripped fragments, or the
fallback if there is none. -/
theorem extract_reply_text_spec (dfields qfields : List (String × JVal))
    (msgs : List JVal)
    (hq : dfields.lookup "queryResult" = some (.obj qfields))
    (hm : qfields.lookup "responseMessages" = some (.arr msgs))
    (hok : ∀ m ∈ msgs, msgOk m = true) :
    extract_reply_text (.obj dfields) = .ok (replyOfMsgs msgs) := by
  simp only [extract_reply_text, hq, Option.getD_some, pyOr_obj, hm, pyOr_arr,
    mapM_chunkOf msgs hok]
  rfl

theorem filterMap_strOnly_filter (ts : List JVal) :
    (ts.filter isStr).filterMap strOnly = ts.filterMap strOnly := by
  induction ts with
  | nil => rfl
  | cons t ts ih =>
    cases t <;> simp [List.filter_cons, List.filterMap_cons, isStr, strOnly, ih]

theorem call_vision_tool_truthy (o : HttpOutcome) :
    (call_vision_tool o).truthy = true := by
  cases o with
  | exn e => simp [call_vision_tool, JVal.truthy]
  | resp r =>
    by_cases h : 400 ≤ r.status
    · simp [call_vision_tool, h, JVal.truthy]
    · simp only [call_vision_tool, if_neg h]
      cases r.json with
      | error e => simp [JVal.truthy]
      | ok data =>
        cases data with
        | obj fields =>
          cases fields with
          | nil => simp [JVal.truthy]
          | cons kv kvs =>
            by_cases hv : (((kv :: kvs) : List (String × JVal)).lookup "vision_data").isSome
            · simp [hv, JVal.truthy]
            · simp [hv, JVal.truthy]
        | null => simp [JVal.truthy]
        | bool b => simp [JVal.truthy]
        | num n => simp [JVal.truthy]
        | str s => simp [JVal.truthy]
        | arr ts => simp [JVal.truthy]

theorem toHexPad_length (w : Nat) : ∀ n, (toHexPad n w).length = w := by
  induction w with
  | zero => intro n; rfl
  | succ w ih => intro n; simp [toHexPad, ih]

theorem uuid4str_length (rand : Nat) : (uuid4str rand).length = 36 := by
  show (String.mk _).length = 36
  rw [show ∀ cs : List Char, (String.mk cs).length = cs.length from fun _ => rfl]
  simp [toHexPad_length]

theorem uuid4str_ne_empty (rand : Nat) : uuid4str rand ≠ "" := by
  intro h
  have h36 := uuid4str_length rand
  rw [h] at h36
  simp [String.length] at h36

theorem pyTruncate_length_le (n : Nat) (s : String) :
    (pyTruncate n s).length ≤ n := by
  show (String.mk _).length ≤ n
  rw [show ∀ cs : List Char, (String.mk cs).length = cs.length from fun _ => rfl]
  simp [List.length_take]

theorem pyTruncate_uuid4str (rand : Nat) :
    pyTruncate 36 (uuid4str rand) = uuid4str rand := by
  unfold pyTruncate
  rw [List.take_of_length_le, show ∀ s : String, String.mk s.toList = s from fun _ => rfl]
  show (uuid4str rand).length ≤ 36
  rw [uuid4str_length]

theorem chat_snd (cfg : Config) (req : ChatReq) (rand : Nat) (t : String)
    (vo ao : HttpOutcome) :
    (chat cfg req rand (.ok t) vo ao).2 = chatEvents cfg req vo := by
  cases ao with
  | exn e => rfl
  | resp r =>
    obtain ⟨st, txt, j⟩ := r
    show (if 400 ≤ st then _ else _ : ChatOutcome × List Event).2 = _
    by_cases h : 400 ≤ st
    · rw [if_pos h]
    · rw [if_neg h]
      cases j with
      | error e => rfl
      | ok df =>
        show (match extract_reply_text df with
          | .error _ => _ | .ok reply => _ : ChatOutcome × List Event).2 = _
        cases extract_reply_text df with
        | error e => rfl
        | ok reply =>
          show (match extract_session_params df with
            | .error _ => _ | .ok params => _ : ChatOutcome × List Event).2 = _
          cases extract_session_params df with
          | error e => rfl
          | ok params => rfl

theorem chat_ok_of (cfg : Config) (req : ChatReq) (rand : Nat) (t : String)
    (vo : HttpOutcome) (st : Nat) (txt : String) (df : JVal) (reply : String)
    (params : List (String × JVal)) (h4 : ¬ 400 ≤ st)
    (hrep : extract_reply_text df = .ok reply)
    (hps : extract_session_params df = .ok params) :
    chat cfg req rand (.ok t) vo (.resp ⟨st, txt, .ok df⟩)
      = (.ok (chatOkResult cfg req rand vo df reply params),
         chatEvents cfg req vo) := by
  have hchat : chat cfg req rand (.ok t) vo (.resp ⟨st, txt, .ok df⟩)
      = if 400 ≤ st then (.httpExc st txt, chatEvents cfg req vo)
        else
          match extract_reply_text df with
          | .error _ => (.exn "AttributeError", chatEvents cfg req vo)
          | .ok reply =>
            match extract_session_params df with
            | .error _ => (.exn "AttributeError", chatEvents cfg req vo)
            | .ok params =>
              (.ok (chatOkResult cfg req rand vo df reply params),
               chatEvents cfg req vo) := rfl
  rw [hchat, if_neg h4, hrep, hps]

theorem chat_ok_inv (cfg : Config) (req : ChatReq) (rand : Nat)
    (tok : Except String String) (vo ao : HttpOutcome) (res : ChatOk)
    (tr : List Event)
    (h : chat cfg req rand tok vo ao = (.ok res, tr)) :
    ∃ df reply params,
      extract_reply_text df = .ok reply ∧
      extract_session_params df = .ok params ∧
      res = chatOkResult cfg req rand vo df reply params ∧
      tr = chatEvents cfg req vo := by
  cases tok with
  | error e => simp [chat] at h
  | ok t =>
    cases ao with
    | exn e => simp [chat] at h
    | resp r =>
      obtain ⟨st, txt, j⟩ := r
      rw [show chat cfg req rand (.ok t) vo (.resp ⟨st, txt, j⟩)
          = if 400 ≤ st then (.httpExc st txt, chatEvents cfg req vo)
            else match j with
              | .error e => (.exn e, chatEvents cfg req vo)
              | .ok df =>
                match extract_reply_text df with
                | .error _ => (.exn "AttributeError", chatEvents cfg req vo)
                | .ok reply =>
                  match extract_session_params df with
                  | .error _ => (.exn "AttributeError", chatEvents cfg req vo)
                  | .ok params =>
                    (.ok (chatOkResult cfg req rand vo df reply params),
                     chatEvents cfg req vo) from rfl] at h
      by_cases h4 : 400 ≤ st
      · rw [if_pos h4] at h; simp at h
      · rw [if_neg h4] at h
        cases j with
        | error e => simp at h
        | ok df =>
          replace h : (match extract_reply_text df with
              | Except.error _ => (ChatOutcome.exn "AttributeError", chatEvents cfg req vo)
              | Except.ok reply =>
                match extract_session_params df with
                | Except.error _ => (ChatOutcome.exn "AttributeError", chatEvents cfg req vo)
                | Except.ok params =>
                  (ChatOutcome.ok (chatOkResult cfg req rand vo df reply params),
                   chatEvents cfg req vo)) = (ChatOutcome.ok res, tr) := h
          generalize hrep : extract_reply_text df = er at h
          cases er with
          | error e => simp at h
          | ok reply =>
            generalize hps : extract_session_params df = ep at h
            cases ep with
            | error e => simp at h
            | ok params =>
              simp only [Prod.mk.injEq, ChatOutcome.ok.injEq] at h
              exact ⟨df, reply, params, hrep, hps, h.1.symm, h.2.symm⟩

theorem msgOk_dropNonStrings (m : JVal) : msgOk (dropNonStrings m) = true := by
  cases m with
  | obj fields =>
    cases ht : (fields.lookup "text").getD JVal.null with
    | obj tfields =>
      cases htt : (tfields.lookup "text").getD JVal.null <;>
        simp [dropNonStrings, msgOk, ht, htt, List.lookup]
    | null => simp [dropNonStrings, msgOk, ht]
    | bool b => simp [dropNonStrings, msgOk, ht]
    | num n => simp [dropNonStrings, msgOk, ht]
    | str s => simp [dropNonStrings, msgOk, ht]
    | arr ts => simp [dropNonStrings, msgOk, ht]
  | null => simp [dropNonStrings, msgOk]
  | bool b => simp [dropNonStrings, msgOk]
  | num n => simp [dropNonStrings, msgOk]
  | str s => simp [dropNonStrings, msgOk]
  | arr ts => simp [dropNonStrings, msgOk]

theorem msgChunks_dropNonStrings (m : JVal) :
    msgChunks (dropNonStrings m) = msgChunks m := by
  cases m with
  | obj fields =>
    cases ht : (fields.lookup "text").getD JVal.null with
    | obj tfields =>
      cases htt : (tfields.lookup "text").getD JVal.null <;>
        simp [dropNonStrings, msgChunks, ht, htt, List.lookup,
          filterMap_strOnly_filter]
    | null => simp [dropNonStrings, msgChunks, ht]
    | bool b => simp [dropNonStrings, msgChunks, ht]
    | num n => simp [dropNonStrings, msgChunks, ht]
    | str s => simp [dropNonStrings, msgChunks, ht]
    | arr ts => simp [dropNonStrings, msgChunks, ht]
  | null => simp [dropNonStrings, msgChunks]
  | bool b => simp [dropNonStrings, msgChunks]
  | num n => simp [dropNonStrings, msgChunks]
  | str s => simp [dropNonStrings, msgChunks]
  | arr ts => simp [dropNonStrings, msgChunks]

/-! ## Claims -/

/-- C3 counterexample: a 2xx vision response whose body carries
`vision_data` but no `success` key is returned verbatim, so the returned
result has no `success` flag at all (in particular not a true one),
contradicting the claim that such a call always yields a result whose
success flag is true. -/
theorem c3_counterexample :
    call_vision_tool (HttpOutcome.resp ⟨200, "",
        Except.ok (JVal.obj [("vision_data", JVal.obj [])])⟩)
      = JVal.obj [("vision_data", JVal.obj [])]
    ∧ jGet (JVal.obj [("vision_data", JVal.obj [])]) "success" = none
    ∧ optTruthy (jGet (JVal.obj [("vision_data", JVal.obj [])]) "success") = false :=
  ⟨rfl, rfl, rfl⟩

/-- C3 (corrected): for every vision-service response with status below 400
whose parsed body is a mapping containing `vision_data`, the call returns
the parsed body verbatim; hence its `vision_data` equals the payload's,
and its success flag is whatever the payload itself carries. -/
theorem c3_vision_payload_verbatim (st : Nat) (txt : String)
    (fields : List (String × JVal)) (vd : JVal) (h4 : st < 400)
    (hvd : fields.lookup "vision_data" = some vd) :
    call_vision_tool (.resp ⟨st, txt, .ok (.obj fields)⟩) = .obj fields
    ∧ jGet (JVal.obj fields) "vision_data" = some vd := by
  constructor
  · simp only [call_vision_tool, if_neg (by omega : ¬ 400 ≤ st)]
    simp [hvd]
  · simp [jGet, hvd]

theorem c3_witness :
    call_vision_tool (.resp ⟨200, "", .ok (.obj [("success", JVal.bool true),
        ("vision_data", JVal.obj [("k", JVal.num 1)])])⟩)
      = JVal.obj [("success", JVal.bool true),
          ("vision_data", JVal.obj [("k", JVal.num 1)])]
    ∧ jGet (JVal.obj [("success", JVal.bool true),
          ("vision_data", JVal.obj [("k", JVal.num 1)])]) "vision_data"
        = some (JVal.obj [("k", JVal.num 1)]) :=
  c3_vision_payload_verbatim 200 "" _ _ (by omega) rfl

/-- C4 counterexample: `_extract_reply_text` does raise on some responses —
a non-mapping element among `responseMessages` (here the number `5`) makes
`m.get("text")` raise `AttributeError` — refuting the claim that the
function never raises. -/
theorem c4_counterexample :
    extract_reply_text (.obj [("queryResult",
        .obj [("responseMessages", .arr [.num 5])])]) = .error () := rfl

/-- C4 (corrected): on every response whose `queryResult` is a mapping,
whose `responseMessages` is a list, and whose messages are mappings with
mapping-shaped (or falsy) `text` fields, `extractReply` does not raise and
returns all text fragments in encounter order joined by newline and
trimmed, or the fixed localized fallback when no fragment was found; on
other shapes it can raise. -/
theorem c4_reply_concatenation (dfields qfields : List (String × JVal))
    (msgs : List JVal)
    (hq : dfields.lookup "queryResult" = some (.obj qfields))
    (hm : qfields.lookup "responseMessages" = some (.arr msgs))
    (hok : ∀ m ∈ msgs, msgOk m = true) :
    extract_reply_text (.obj dfields)
      = .ok (if ((msgs.map msgChunks).flatten).isEmpty then FALLBACK_REPLY
             else pyStrip (String.intercalate "\n" ((msgs.map msgChunks).flatten))) := by
  rw [extract_reply_text_spec dfields qfields msgs hq hm hok]
  rfl

theorem c4_witness :
    extract_reply_text (.obj [("queryResult", .obj [("responseMessages",
        .arr [.obj [("text", .obj [("text", .arr [JVal.str "a", JVal.str "b"])])],
              .obj [("text", .obj [("text", JVal.str "c")])]])])])
      = .ok "a\nb\nc" := by
  have h := c4_reply_concatenation
    [("queryResult", .obj [("responseMessages",
      .arr [.obj [("text", .obj [("text", .arr [JVal.str "a", JVal.str "b"])])],
            .obj [("text", .obj [("text", JVal.str "c")])]])])]
    [("responseMessages",
      .arr [.obj [("text", .obj [("text", .arr [JVal.str "a", JVal.str "b"])])],
            .obj [("text", .obj [("text", JVal.str "c")])]])]
    [.obj [("text", .obj [("text", .arr [JVal.str "a", JVal.str "b"])])],
     .obj [("text", .obj [("text", JVal.str "c")])]]
    rfl rfl (by decide)
  exact h.trans (by rfl)

/-- C5 counterexample: an empty-string `compliance_checklist` is falsy, so
`checklist or []` replaces it with the empty list and the result is `[]`,
not the one-element sequence `[""]` the claim requires for every single
string. -/
theorem c5_counterexample :
    (normalize_for_ui [("compliance_checklist", JVal.str "")]).compliance_checklist = []
    ∧ (normalize_for_ui [("compliance_checklist", JVal.str "")]).compliance_checklist
        ≠ [""] :=
  ⟨rfl, by decide⟩

/-- C5 (corrected): `normalizeForUi` maps the `compliance_checklist` value
as follows: a non-empty string becomes the one-element sequence holding it,
while the empty string becomes the empty sequence; a sequence becomes the
same-length sequence of its elements coerced to string, order preserved;
any other shape, including absence of the key, becomes the empty
sequence. -/
theorem c5_checklist_normalization (params : List (String × JVal)) :
    (normalize_for_ui params).compliance_checklist
      = match params.lookup "compliance_checklist" with
        | some (.str s) => if s = "" then [] else [s]
        | some (.arr xs) => xs.map pyStr
        | _ => [] := by
  cases hc : params.lookup "compliance_checklist" with
  | none => simp [normalize_for_ui, hc, pyOr, JVal.truthy]
  | some v =>
    cases v with
    | str s =>
      by_cases hs : s = ""
      · subst hs; simp [normalize_for_ui, hc, pyOr, JVal.truthy]
      · simp [normalize_for_ui, hc, pyOr, JVal.truthy, hs]
    | arr xs =>
      cases xs with
      | nil => simp [normalize_for_ui, hc, pyOr, JVal.truthy]
      | cons x xs => simp [normalize_for_ui, hc, pyOr, JVal.truthy]
    | null => simp [normalize_for_ui, hc, pyOr, JVal.truthy]
    | bool b => cases b <;> simp [normalize_for_ui, hc, pyOr, JVal.truthy]
    | num n =>
      by_cases hn : n = 0
      · subst hn; simp [normalize_for_ui, hc, pyOr, JVal.truthy]
      · simp [normalize_for_ui, hc, pyOr, JVal.truthy, hn]
    | obj fields =>
      cases fields with
      | nil => simp [normalize_for_ui, hc, pyOr, JVal.truthy]
      | cons kv kvs => simp [normalize_for_ui, hc, pyOr, JVal.truthy]

/-- C9 (confirmed): non-string elements inside a list-shaped textual
payload, and messages whose textual payload is neither a string nor a list,
are silently dropped: the reply equals the one computed from the messages
with exactly those pieces removed, so only string fragments contribute. -/
theorem c9_nonstrings_dropped (dfields qfields : List (String × JVal))
    (msgs : List JVal)
    (hq : dfields.lookup "queryResult" = some (.obj qfields))
    (hm : qfields.lookup "responseMessages" = some (.arr msgs))
    (hok : ∀ m ∈ msgs, msgOk m = true) :
    extract_reply_text (.obj dfields)
      = extract_reply_text (.obj [("queryResult",
          .obj [("responseMessages", .arr (msgs.map dropNonStrings))])]) := by
  rw [extract_reply_text_spec dfields qfields msgs hq hm hok,
    extract_reply_text_spec [("queryResult",
        .obj [("responseMessages", .arr (msgs.map dropNonStrings))])]
      [("responseMessages", .arr (msgs.map dropNonStrings))]
      (msgs.map dropNonStrings) rfl rfl
      (by intro m hmem
          obtain ⟨x, _, rfl⟩ := List.mem_map.1 hmem
          exact msgOk_dropNonStrings x)]
  have hmap : (msgs.map dropNonStrings).map msgChunks = msgs.map msgChunks := by
    rw [List.map_map]
    exact List.map_congr_left (fun x _ => msgChunks_dropNonStrings x)
  simp only [replyOfMsgs]
  rw [hmap]

theorem c9_witness :
    extract_reply_text (.obj [("queryResult", .obj [("responseMessages",
        .arr [.obj [("text", .obj [("text",
          .arr [JVal.str "a", JVal.num 3, JVal.str "b"])])]])])])
      = extract_reply_text (.obj [("queryResult", .obj [("responseMessages",
          .arr (([.obj [("text", .obj [("text",
            .arr [JVal.str "a", JVal.num 3, JVal.str "b"])])]] : List JVal).map
              dropNonStrings))])])
    ∧ extract_reply_text (.obj [("queryResult", .obj [("responseMessages",
        .arr [.obj [("text", .obj [("text",
          .arr [JVal.str "a", JVal.num 3, JVal.str "b"])])]])])])
      = .ok "a\nb" :=
  ⟨c9_nonstrings_dropped _ _ _ rfl rfl (by decide), rfl⟩

/-- C1 counterexample: with both debug toggles disabled and an internally
computed vision result and raw agent response, the handler returns a
response (outer `some`) in whose serialization both debug keys are present
and bound to `null` (inner `some JVal.null`) — the claim requires them to
be entirely absent (`some none`). -/
theorem c1_counterexample :
    visionDebugJson (chat ⟨none, "he", false, false⟩ ⟨some "s", "m", some "img"⟩ 0
        (Except.ok "t")
        (HttpOutcome.resp ⟨200, "", Except.ok (JVal.obj [("success", JVal.bool true),
          ("vision_data", JVal.obj [("k", JVal.str "v")])])⟩)
        (HttpOutcome.resp ⟨200, "", Except.ok (JVal.obj [])⟩)).1
      = some (some JVal.null)
    ∧ rawAgentJson (chat ⟨none, "he", false, false⟩ ⟨some "s", "m", some "img"⟩ 0
        (Except.ok "t")
        (HttpOutcome.resp ⟨200, "", Except.ok (JVal.obj [("success", JVal.bool true),
          ("vision_data", JVal.obj [("k", JVal.str "v")])])⟩)
        (HttpOutcome.resp ⟨200, "", Except.ok (JVal.obj [])⟩)).1
      = some (some JVal.null) :=
  ⟨rfl, rfl⟩

/-- C1 (corrected): for every successful `/chat` response, under any
combination of the two debug toggles, whenever the corresponding toggle is
disabled (DEBUG_VISION for `vision_debug`, DEBUG_RAW for
`raw_agent_response`) that debug field is present in the serialized
response with a `null` value (pydantic serializes the `None` default;
`response_model_exclude_none` is not set), regardless of the internally
computed vision result and raw agent response. -/
theorem c1_debug_fields_null (pb : Option String) (lang : String)
    (debug_raw debug_vision : Bool) (req : ChatReq) (rand : Nat)
    (tok : Except String String) (vo ao : HttpOutcome) (res : ChatOk)
    (tr : List Event)
    (h : chat ⟨pb, lang, debug_raw, debug_vision⟩ req rand tok vo ao
      = (.ok res, tr)) :
    (debug_vision = false →
      jGet (chatResponseJson res) "vision_debug" = some JVal.null)
    ∧ (debug_raw = false →
      jGet (chatResponseJson res) "raw_agent_response" = some JVal.null) := by
  obtain ⟨df, reply, params, hrep, hps, hres, htr⟩ :=
    chat_ok_inv _ _ _ _ _ _ _ _ h
  subst hres
  constructor
  · intro hdv
    subst hdv
    simp [chatOkResult, chatResponseJson, jGet, List.lookup]
  · intro hdr
    subst hdr
    simp [chatOkResult, chatResponseJson, jGet, List.lookup]

theorem c1_witness :
    jGet (chatResponseJson ⟨"s", FALLBACK_REPLY, ⟨none, none, none⟩, [],
        none, some (JVal.obj [])⟩) "vision_debug" = some JVal.null :=
  (c1_debug_fields_null none "he" true false ⟨some "s", "m", none⟩ 0
    (Except.ok "t") (HttpOutcome.exn "v")
    (HttpOutcome.resp ⟨200, "", Except.ok (JVal.obj [])⟩)
    ⟨"s", FALLBACK_REPLY, ⟨none, none, none⟩, [], none, some (JVal.obj [])⟩
    [Event.agentCall (JVal.obj [("queryInput",
      JVal.obj [("languageCode", JVal.str "he"),
                ("text", JVal.obj [("text", JVal.str "m")])])])]
    rfl).1 rfl

/-- C2 counterexample: a supplied empty-string session id candidate is
falsy, so `req.session_id or str(uuid.uuid4())` discards it and the
response session id is a fresh uuid rather than the candidate truncated to
36 characters (which would be `""`). -/
theorem c2_counterexample :
    sessionIdOf (chat ⟨none, "he", false, false⟩ ⟨some "", "m", none⟩ 0
        (Except.ok "t") (HttpOutcome.exn "v")
        (HttpOutcome.resp ⟨200, "", Except.ok (JVal.obj [])⟩)).1
      = some "00000000-0000-4000-8000-000000000000"
    ∧ ("00000000-0000-4000-8000-000000000000" : String) ≠ pyTruncate 36 "" :=
  ⟨rfl, by decide⟩

/-- C2 (corrected): for every successful `/chat` request, if a non-empty
session id candidate is supplied the response session id is the candidate
truncated to at most 36 characters, verbatim and unvalidated; if the
candidate is absent or empty, it is a freshly generated non-empty
identifier of length at most 36. -/
theorem c2_session_id (cfg : Config) (req : ChatReq) (rand : Nat)
    (tok : Except String String) (vo ao : HttpOutcome) (res : ChatOk)
    (tr : List Event) (h : chat cfg req rand tok vo ao = (.ok res, tr)) :
    (∀ s, req.session_id = some s → s ≠ "" →
        res.session_id = pyTruncate 36 s ∧ res.session_id.length ≤ 36)
    ∧ ((req.session_id = none ∨ req.session_id = some "") →
        res.session_id = uuid4str rand ∧ res.session_id ≠ ""
          ∧ res.session_id.length ≤ 36) := by
  obtain ⟨df, reply, params, hrep, hps, hres, htr⟩ :=
    chat_ok_inv _ _ _ _ _ _ _ _ h
  subst hres
  constructor
  · intro s hs hne
    rw [show (chatOkResult cfg req rand vo df reply params).session_id
        = pyTruncate 36 (pyOrStr req.session_id (uuid4str rand)) from rfl,
      hs]
    have hb : (s != "") = true := bne_iff_ne.mpr hne
    have hpy : pyOrStr (some s) (uuid4str rand) = s := by simp [pyOrStr, hb]
    rw [hpy]
    exact ⟨rfl, pyTruncate_length_le 36 s⟩
  · intro hcase
    have hpy : pyOrStr req.session_id (uuid4str rand) = uuid4str rand := by
      rcases hcase with hnone | hempty
      · rw [hnone]; rfl
      · rw [hempty]; simp [pyOrStr]
    rw [show (chatOkResult cfg req rand vo df reply params).session_id
        = pyTruncate 36 (pyOrStr req.session_id (uuid4str rand)) from rfl,
      hpy, pyTruncate_uuid4str]
    exact ⟨rfl, uuid4str_ne_empty rand, le_of_eq (uuid4str_length rand)⟩

theorem c2_witness :
    ("abc" : String) ≠ ""
    ∧ ChatOk.session_id ⟨"abc", FALLBACK_REPLY, ⟨none, none, none⟩, [], none, none⟩
        = pyTruncate 36 "abc" :=
  ⟨by decide,
    ((c2_session_id ⟨none, "he", false, false⟩ ⟨some "abc", "m", none⟩ 0
      (Except.ok "t") (HttpOutcome.exn "v")
      (HttpOutcome.resp ⟨200, "", Except.ok (JVal.obj [])⟩)
      ⟨"abc", FALLBACK_REPLY, ⟨none, none, none⟩, [], none, none⟩
      [Event.agentCall (JVal.obj [("queryInput",
        JVal.obj [("languageCode", JVal.str "he"),
                  ("text", JVal.obj [("text", JVal.str "m")])])])]
      rfl).1 "abc" rfl (by decide)).1⟩

/-- C6 (confirmed): every failure of the vision call is absorbed —
`call_vision_tool` is total, so whatever the vision outcome (transport
error, HTTP error, malformed payload, raised exception), an image-carrying
request still performs the agent call after the vision call and, when the
agent call succeeds and extraction succeeds, returns a response whose reply
is the one derived from the agent response. -/
theorem c6_vision_soft_fail (cfg : Config) (sid : Option String)
    (msg img : String) (rand : Nat) (t txt : String) (st : Nat)
    (vo : HttpOutcome) (df : JVal) (reply : String)
    (params : List (String × JVal)) (himg : img ≠ "") (h4 : st < 400)
    (hrep : extract_reply_text df = .ok reply)
    (hps : extract_session_params df = .ok params) :
    chatReplyOf (chat cfg ⟨sid, msg, some img⟩ rand (.ok t) vo
        (.resp ⟨st, txt, .ok df⟩)).1 = some reply
    ∧ (chat cfg ⟨sid, msg, some img⟩ rand (.ok t) vo
        (.resp ⟨st, txt, .ok df⟩)).2
      = [Event.visionCall img,
         Event.agentCall (chatBody cfg ⟨sid, msg, some img⟩ vo)] := by
  rw [chat_ok_of cfg ⟨sid, msg, some img⟩ rand t vo st txt df reply params
    (by omega) hrep hps]
  have hb : (img != "") = true := bne_iff_ne.mpr himg
  constructor
  · rfl
  · simp [chatEvents, visionEventsOf, hb]

theorem c6_witness :
    chatReplyOf (chat ⟨none, "he", false, false⟩ ⟨none, "m", some "i"⟩ 0
        (Except.ok "t") (HttpOutcome.exn "timeout")
        (HttpOutcome.resp ⟨200, "", Except.ok (JVal.obj [])⟩)).1
      = some FALLBACK_REPLY
    ∧ (chat ⟨none, "he", false, false⟩ ⟨none, "m", some "i"⟩ 0
        (Except.ok "t") (HttpOutcome.exn "timeout")
        (HttpOutcome.resp ⟨200, "", Except.ok (JVal.obj [])⟩)).2
      = [Event.visionCall "i",
         Event.agentCall (chatBody ⟨none, "he", false, false⟩
           ⟨none, "m", some "i"⟩ (HttpOutcome.exn "timeout"))] :=
  c6_vision_soft_fail ⟨none, "he", false, false⟩ none "m" "i" 0 "t" "" 200
    (HttpOutcome.exn "timeout") (JVal.obj []) FALLBACK_REPLY []
    (by decide) (by omega) rfl rfl

/-- C7 (confirmed): every agent-call response with status at least 400
(`400 + extra`) makes the handler abort before normalization and raise an
`HTTPException` carrying exactly the downstream status code and the
downstream response body, with no translation. -/
theorem c7_agent_error_passthrough (cfg : Config) (req : ChatReq)
    (rand : Nat) (t : String) (vo : HttpOutcome) (extra : Nat)
    (txt : String) (j : Except String JVal) :
    (chat cfg req rand (.ok t) vo (.resp ⟨400 + extra, txt, j⟩)).1
      = ChatOutcome.httpExc (400 + extra) txt := by
  simp [chat, Nat.le_add_right]

/-- C8 (confirmed): on every image-carrying request that reaches the
downstream calls, the trace is exactly the vision call followed by the
agent call, and the agent body sent is a function of the completed vision
result — the two downstream calls are strictly sequential. -/
theorem c8_vision_before_agent (cfg : Config) (sid : Option String)
    (msg img : String) (rand : Nat) (t : String) (vo ao : HttpOutcome)
    (himg : img ≠ "") :
    (chat cfg ⟨sid, msg, some img⟩ rand (.ok t) vo ao).2
      = [Event.visionCall img,
         Event.agentCall (buildAgentBody cfg.playbook cfg.language msg
           (some (call_vision_tool vo)))] := by
  rw [chat_snd]
  have hb : (img != "") = true := bne_iff_ne.mpr himg
  simp [chatEvents, visionEventsOf, chatBody, chatVisionResult, hb]

theorem c8_witness :
    (chat ⟨none, "he", false, false⟩ ⟨none, "m", some "i"⟩ 0 (Except.ok "t")
        (HttpOutcome.exn "boom") (HttpOutcome.exn "x")).2
      = [Event.visionCall "i",
         Event.agentCall (buildAgentBody none "he" "m"
           (some (call_vision_tool (HttpOutcome.exn "boom"))))] :=
  c8_vision_before_agent ⟨none, "he", false, false⟩ none "m" "i" 0 "t"
    (HttpOutcome.exn "boom") (HttpOutcome.exn "x") (by decide)

theorem buildQueryParams_none (pb : Option String) :
    buildQueryParams pb none = pbPart pb := rfl

theorem buildQueryParams_some_false (pb : Option String) (v : JVal)
    (hc : (v.truthy && optTruthy (jGet v "success")
      && isDictOpt (jGet v "vision_data")) = false) :
    buildQueryParams pb (some v) = pbPart pb := by
  simp [buildQueryParams, hc]

theorem buildQueryParams_some_true (pb : Option String) (v : JVal)
    (hc : (v.truthy && optTruthy (jGet v "success")
      && isDictOpt (jGet v "vision_data")) = true) :
    buildQueryParams pb (some v) = pbPart pb ++ [("parameters",
      JVal.obj [("vision_data", (jGet v "vision_data").getD JVal.null),
                ("has_image", JVal.bool true)])] := by
  simp [buildQueryParams, hc]

theorem paramsField_of_qp_pbPart (pb : Option String) (lang msg : String)
    (vr : Option JVal) (h : buildQueryParams pb vr = pbPart pb) :
    paramsField (buildAgentBody pb lang msg vr) = none := by
  unfold buildAgentBody
  rw [h]
  cases pb with
  | none => rfl
  | some p =>
    by_cases hp : (p != "") = true
    · simp [pbPart, hp, paramsField, jGet, List.lookup]
    · simp [pbPart, hp, paramsField, jGet, List.lookup]

theorem paramsField_of_qp_params (pb : Option String) (lang msg : String)
    (vr : Option JVal) (P : JVal)
    (h : buildQueryParams pb vr = pbPart pb ++ [("parameters", P)]) :
    paramsField (buildAgentBody pb lang msg vr) = some P := by
  unfold buildAgentBody
  rw [h]
  cases pb with
  | none => simp [pbPart, paramsField, jGet, List.lookup]
  | some p =>
    by_cases hp : (p != "") = true
    · simp [pbPart, hp, paramsField, jGet, List.lookup]
    · simp [pbPart, hp, paramsField, jGet, List.lookup]

theorem agentBodies_chatEvents (cfg : Config) (req : ChatReq)
    (vo : HttpOutcome) :
    agentBodies (chatEvents cfg req vo) = [chatBody cfg req vo] := by
  rcases req with ⟨sid, msg, io⟩
  cases io with
  | none => rfl
  | some img =>
    by_cases hb : (img != "") = true
    · simp [agentBodies, chatEvents, visionEventsOf, hb]
    · simp [agentBodies, chatEvents, visionEventsOf, hb]

/-- C10 (confirmed): every request that reaches the agent call sends
exactly one agent body; that body carries
`queryParams.parameters.vision_data` (equal to the vision result's
`vision_data`) together with `queryParams.parameters.has_image = true`
exactly when the vision call was made (truthy image data) and its result
has a truthy `success` flag and a mapping-shaped `vision_data`; otherwise
the body carries no `parameters` entry at all. -/
theorem c10_vision_params (cfg : Config) (req : ChatReq) (rand : Nat)
    (t : String) (vo ao : HttpOutcome) :
    agentBodies (chat cfg req rand (.ok t) vo ao).2 = [chatBody cfg req vo]
    ∧ (if imgTruthy req
          && optTruthy (jGet (call_vision_tool vo) "success")
          && isDictOpt (jGet (call_vision_tool vo) "vision_data")
       then visionDataIn (chatBody cfg req vo)
              = jGet (call_vision_tool vo) "vision_data"
            ∧ hasImageIn (chatBody cfg req vo) = some (JVal.bool true)
       else paramsField (chatBody cfg req vo) = none) := by
  constructor
  · rw [chat_snd]
    exact agentBodies_chatEvents cfg req vo
  · rcases req with ⟨sid, msg, io⟩
    by_cases hcond : (imgTruthy ⟨sid, msg, io⟩
        && optTruthy (jGet (call_vision_tool vo) "success")
        && isDictOpt (jGet (call_vision_tool vo) "vision_data")) = true
    · rw [if_pos hcond]
      have himgT : imgTruthy ⟨sid, msg, io⟩ = true := by
        rcases Bool.and_eq_true_iff.1 hcond with ⟨h1, _⟩
        exact (Bool.and_eq_true_iff.1 h1).1
      have hsucc : optTruthy (jGet (call_vision_tool vo) "success") = true := by
        rcases Bool.and_eq_true_iff.1 hcond with ⟨h1, _⟩
        exact (Bool.and_eq_true_iff.1 h1).2
      have hdict : isDictOpt (jGet (call_vision_tool vo) "vision_data") = true :=
        (Bool.and_eq_true_iff.1 hcond).2
      cases io with
      | none => simp [imgTruthy] at himgT
      | some img =>
        have hb : (img != "") = true := by simpa [imgTruthy] using himgT
        have hvr : chatVisionResult ⟨sid, msg, some img⟩ vo
            = some (call_vision_tool vo) := by
          simp [chatVisionResult, hb]
        have hc2 : ((call_vision_tool vo).truthy
            && optTruthy (jGet (call_vision_tool vo) "success")
            && isDictOpt (jGet (call_vision_tool vo) "vision_data")) = true := by
          simp [call_vision_tool_truthy vo, hsucc, hdict]
        obtain ⟨dfs, hdfs⟩ : ∃ dfs,
            jGet (call_vision_tool vo) "vision_data" = some (JVal.obj dfs) := by
          cases hjv : jGet (call_vision_tool vo) "vision_data" with
          | none => rw [hjv] at hdict; simp [isDictOpt] at hdict
          | some w =>
            cases w with
            | obj fields => exact ⟨fields, rfl⟩
            | null => rw [hjv] at hdict; simp [isDictOpt] at hdict
            | bool b => rw [hjv] at hdict; simp [isDictOpt] at hdict
            | num n => rw [hjv] at hdict; simp [isDictOpt] at hdict
            | str s => rw [hjv] at hdict; simp [isDictOpt] at hdict
            | arr ts => rw [hjv] at hdict; simp [isDictOpt] at hdict
        have hpf : paramsField (chatBody cfg ⟨sid, msg, some img⟩ vo)
            = some (JVal.obj [("vision_data",
                (jGet (call_vision_tool vo) "vision_data").getD JVal.null),
              ("has_image", JVal.bool true)]) := by
          unfold chatBody
          rw [hvr]
          exact paramsField_of_qp_params _ _ _ _ _
            (buildQueryParams_some_true _ _ hc2)
        constructor
        · rw [visionDataIn, hpf, hdfs]
          simp [jGet, List.lookup]
        · rw [hasImageIn, hpf]
          simp [jGet, List.lookup]
    · rw [if_neg hcond]
      have hcond' : (imgTruthy ⟨sid, msg, io⟩
          && optTruthy (jGet (call_vision_tool vo) "success")
          && isDictOpt (jGet (call_vision_tool vo) "vision_data")) = false :=
        Bool.eq_false_iff.2 hcond
      cases io with
      | none =>
        show paramsField (chatBody cfg ⟨sid, msg, none⟩ vo) = none
        unfold chatBody
        rw [show chatVisionResult ⟨sid, msg, none⟩ vo = none from rfl]
        exact paramsField_of_qp_pbPart _ _ _ _ (buildQueryParams_none _)
      | some img =>
        by_cases hb : (img != "") = true
        · have himgT : imgTruthy ⟨sid, msg, some img⟩ = true := by
            simpa [imgTruthy] using hb
          have hvr : chatVisionResult ⟨sid, msg, some img⟩ vo
              = some (call_vision_tool vo) := by
            simp [chatVisionResult, hb]
          have hbc : (optTruthy (jGet (call_vision_tool vo) "success")
              && isDictOpt (jGet (call_vision_tool vo) "vision_data")) = false := by
            simpa [himgT] using hcond'
          have hc2 : ((call_vision_tool vo).truthy
              && optTruthy (jGet (call_vision_tool vo) "success")
              && isDictOpt (jGet (call_vision_tool vo) "vision_data")) = false := by
            simpa [call_vision_tool_truthy vo, Bool.and_assoc] using hbc
          show paramsField (chatBody cfg ⟨sid, msg, some img⟩ vo) = none
          unfold chatBody
          rw [hvr]
          exact paramsField_of_qp_pbPart _ _ _ _
            (buildQueryParams_some_false _ _ hc2)
        · show paramsField (chatBody cfg ⟨sid, msg, some img⟩ vo) = none
          unfold chatBody
          rw [show chatVisionResult ⟨sid, msg, some img⟩ vo = none from by
            simp [chatVisionResult, hb]]
          exact paramsField_of_qp_pbPart _ _ _ _ (buildQueryParams_none _)
